import Mathlib

/-!
# Verification of the `snek` snake-game core (src/main.cpp)

This file gives a shallow embedding of the simulation core of the repository:
the grid occupancy model (`Grid`, `Block`), the snake data and its operations
(`snakeNew`, `setDirection`, `move`, `addBody`), fruit spawning (`spawn_fruit`,
`gen_fruit_colour`), and the main-loop game-state handling relevant to the
`End` state.  Machine integers (`sf::Vector2u` coordinates, 32-bit `unsigned
int`) are modelled as `Nat` with explicit reduction modulo `2^32` exactly where
the C++ arithmetic wraps.  C++ exceptions are modelled with `Except`, the error
value carrying the program state at the moment of the throw (the C++ code
throws before performing any mutation, so that state is the entry state).
Randomness (`randomiser::gen(min, max)`, an inclusive
`uniform_int_distribution`) is modelled by passing the drawn value explicitly
together with the support predicate `genSupport`.

Rendering, window and timing concerns of the source are presentation-layer and
are not modelled, except that colours of blocks are kept because fruit
spawning assigns them.
-/

namespace Snek

/-- Modulus of the 32-bit `unsigned int` used by `sf::Vector2u`. -/
def U32 : Nat := 4294967296

/-- BlockType from src/main.cpp:13-17. -/
inductive BlockType : Type where
  | Vacant
  | OccupiedSnake
  | OccupiedFruit
deriving DecidableEq

/-- RGB colour, modelling `sf::Color` (alpha omitted, never observed). -/
structure Colour : Type where
  r : Nat
  g : Nat
  b : Nat
deriving DecidableEq

def colourGreen : Colour := ⟨0, 255, 0⟩
def colourRed : Colour := ⟨255, 0, 0⟩
def colourBlue : Colour := ⟨0, 0, 255⟩
def colourOrange : Colour := ⟨255, 165, 0⟩

/-- The observable state of a `Block` (src/main.cpp:19-89): its occupancy type
and its colour.  The vertex array is pure rendering and is not modelled. -/
structure Block : Type where
  type : BlockType
  colour : Colour
deriving DecidableEq

/-- A default-constructed `Block`: `_type = Vacant`, `_colour = Green`. -/
def defaultBlock : Block := ⟨BlockType.Vacant, colourGreen⟩

def Block.isSnakeOccupied (b : Block) : Bool := b.type = BlockType.OccupiedSnake
def Block.isFruitOccupied (b : Block) : Bool := b.type = BlockType.OccupiedFruit
def Block.isOccupied (b : Block) : Bool := b.isSnakeOccupied || b.isFruitOccupied

/-- A grid position, modelling `sf::Vector2u` (each component a 32-bit
unsigned value; the code may produce wrapped-around components). -/
structure Pos : Type where
  x : Nat
  y : Nat
deriving DecidableEq

/-- Grid from src/main.cpp:91-152: dimensions and the dense row-major block
vector `blocks(horizontal * vertical)`.  The constructor's vertex-position
loop is rendering-only; every block starts default (`Vacant`, Green). -/
structure Grid : Type where
  horizontal : Nat
  vertical : Nat
  blocks : List Block
deriving DecidableEq

/-- Grid as constructed by `Grid(W, H, pos, resolution)`: `W * H` default
blocks (the constructor only assigns vertex positions, never types). -/
def mkGrid (W H : Nat) : Grid := ⟨W, H, List.replicate (W * H) defaultBlock⟩

/-- Grid::len (src/main.cpp:133-135): `blocks.size()`. -/
def Grid.len (g : Grid) : Nat := g.blocks.length

/-- The linear storage index `pos.x + pos.y * horizontal()` used by the
position-taking `Grid::operator[]` (src/main.cpp:137-143).  No bounds check
is performed by the source. -/
def Grid.idx (g : Grid) (p : Pos) : Nat := p.x + p.y * g.horizontal

/-- Read through the position-taking `Grid::operator[]`: direct, unchecked
access to `blocks[pos.x + pos.y * horizontal()]`.  `none` models an access
past the end of the vector (undefined behaviour in the C++). -/
def Grid.getPos (g : Grid) (p : Pos) : Option Block := g.blocks.get? (g.idx p)

/-- Read through the `size_t`-taking `Grid::operator[]` (src/main.cpp:145-151):
direct unchecked access to `blocks[pos]`. -/
def Grid.getIdx (g : Grid) (i : Nat) : Option Block := g.blocks.get? i

/-- Mutate the block at linear index `i` with `f`, if the index is in the
storage; an out-of-range write (undefined behaviour in C++) leaves the model
unchanged. -/
def Grid.setBlockAt (g : Grid) (i : Nat) (f : Block → Block) : Grid :=
  match g.blocks.get? i with
  | some b => ⟨g.horizontal, g.vertical, g.blocks.set i (f b)⟩
  | none => g

/-- `grid[i].set_type(t)` through the index operator. -/
def Grid.setTypeIdx (g : Grid) (i : Nat) (t : BlockType) : Grid :=
  g.setBlockAt i (fun b => ⟨t, b.colour⟩)

/-- `grid[i].set_color(c)` through the index operator. -/
def Grid.setColourIdx (g : Grid) (i : Nat) (c : Colour) : Grid :=
  g.setBlockAt i (fun b => ⟨b.type, c⟩)

/-- `grid[pos].set_type(t)` through the position operator (unchecked index). -/
def Grid.setType (g : Grid) (p : Pos) (t : BlockType) : Grid :=
  g.setTypeIdx (g.idx p) t

/-- `grid[pos].set_color(c)` through the position operator (unchecked index). -/
def Grid.setColour (g : Grid) (p : Pos) (c : Colour) : Grid :=
  g.setColourIdx (g.idx p) c

/-- Well-formedness every C++ `Grid` object enjoys by construction:
the block vector has exactly `horizontal * vertical` entries. -/
abbrev Grid.WF (g : Grid) : Prop := g.blocks.length = g.horizontal * g.vertical

/-- Direction from src/main.cpp:158-164. -/
inductive Direction : Type where
  | None
  | Left
  | Right
  | Up
  | Down
deriving DecidableEq

/-- to_pos (src/main.cpp:166-187): the unit vector of a direction. -/
def to_pos : Direction → Int × Int
  | Direction.Left => (-1, 0)
  | Direction.Right => (1, 0)
  | Direction.Up => (0, -1)
  | Direction.Down => (0, 1)
  | Direction.None => (0, 0)

/-- The `operator+(sf::Vector2u, sf::Vector2i)` of src/main.cpp:154-156:
`uint(int(lhs.x) + rhs.x)`, i.e. each component reduced modulo `2^32`. -/
def vecAddU (p : Pos) (d : Int × Int) : Pos :=
  ⟨(((p.x : Int) + d.1).emod (U32 : Int)).toNat,
   (((p.y : Int) + d.2).emod (U32 : Int)).toNat⟩

/-- The exceptions the core throws: the two `std::out_of_range` throws of
`Snake::assert`, `CollisionException`, and `MotorException`. -/
inductive SnekError : Type where
  | oobHorizontal
  | oobVertical
  | collision
  | motor
deriving DecidableEq

/-- Which errors the spec calls OutOfBounds. -/
def SnekError.isOutOfBounds : SnekError → Bool
  | SnekError.oobHorizontal => true
  | SnekError.oobVertical => true
  | _ => false

/-- Support of `randomiser::gen(lo, hi)` (src/main.cpp:206-209):
`std::uniform_int_distribution<size_t>(lo, hi)` draws any value
in the inclusive range `[lo, hi]`. -/
abbrev genSupport (lo hi r : Nat) : Prop := lo ≤ r ∧ r ≤ hi

/-- Snake data (src/main.cpp:212-218): head position, body segments ordered
nearest-to-head first, and the current heading. -/
structure Snake : Type where
  head : Pos
  body : List Pos
  dir : Direction
deriving DecidableEq

/-- The whole mutable simulation state: the grid and the snake that aliases
it. -/
structure GState : Type where
  grid : Grid
  snake : Snake
deriving DecidableEq

def blockIsSnake (o : Option Block) : Bool :=
  match o with
  | some b => b.isSnakeOccupied
  | none => false

def blockIsFruit (o : Option Block) : Bool :=
  match o with
  | some b => b.isFruitOccupied
  | none => false

def blockIsOccupied (o : Option Block) : Bool :=
  match o with
  | some b => b.isOccupied
  | none => false

/-- Snake::assert (src/main.cpp:220-225): throws `out_of_range` when
`pos.x >= grid.horizontal()`, then when `pos.y >= grid.vertical()`, then
`CollisionException` when the target block is snake-occupied. -/
def snakeAssert (g : Grid) (p : Pos) : Except SnekError Unit :=
  if g.horizontal ≤ p.x then Except.error SnekError.oobHorizontal
  else if g.vertical ≤ p.y then Except.error SnekError.oobVertical
  else if blockIsSnake (g.getPos p) then Except.error SnekError.collision
  else Except.ok ()

/-- Snake::assert_direction (src/main.cpp:227-237): `true` iff the request is
the exact reverse of the current heading (the throwing condition). -/
def assert_direction (cur req : Direction) : Bool :=
  ((req = Direction.Left ∧ cur = Direction.Right : Bool)
    || (req = Direction.Right ∧ cur = Direction.Left : Bool))
  || ((req = Direction.Up ∧ cur = Direction.Down : Bool)
    || (req = Direction.Down ∧ cur = Direction.Up : Bool))

/-- Snake::set_direction (src/main.cpp:289-293): throws `MotorException`
(carrying the unchanged snake) when `assert_direction` fires, otherwise
assigns the heading. -/
def setDirection (s : Snake) (d : Direction) : Except (SnekError × Snake) Snake :=
  if assert_direction s.dir d then Except.error (SnekError.motor, s)
  else Except.ok ⟨s.head, s.body, d⟩

/-- Snake::Snake (src/main.cpp:248-256): the head cell is drawn by
`gen(0, grid.horizontal())` and `gen(0, grid.vertical())` (inclusive upper
bounds), that cell is marked OccupiedSnake, heading starts None, body empty.
`rx, ry` are the two random draws. -/
def snakeNew (g : Grid) (rx ry : Nat) : GState :=
  let initial : Pos := ⟨rx, ry⟩
  ⟨g.setType initial BlockType.OccupiedSnake, ⟨initial, [], Direction.None⟩⟩

/-- Snake::update_pos (src/main.cpp:239-245), grid effect: vacate the old
cell, occupy the new one.  The position reassignment is carried by the
callers. -/
def updatePosGrid (g : Grid) (oldPos newPos : Pos) : Grid :=
  (g.setType oldPos BlockType.Vacant).setType newPos BlockType.OccupiedSnake

/-- The body loop of Snake::move (src/main.cpp:270-276): each segment in
head-to-tail order vacates its cell and occupies the position its predecessor
held before this step.  Returns the updated grid and body list. -/
def shiftBody (g : Grid) (body : List Pos) (oldPos : Pos) : Grid × List Pos :=
  match body with
  | [] => (g, [])
  | p :: rest =>
    let g' := updatePosGrid g p oldPos
    let res := shiftBody g' rest p
    (res.1, oldPos :: res.2)

/-- The new-tail computation of Snake::add_body (src/main.cpp:295-313):
copy the current tail (or the head when the body is empty) and move it one
unit opposite the heading, with 32-bit unsigned wraparound (`tail.x -= 1`
on `x = 0` yields `2^32 - 1`). -/
def addBodyTailPos (s : Snake) : Pos :=
  let tail := s.body.getLast?.getD s.head
  match s.dir with
  | Direction.Left => ⟨(tail.x + 1) % U32, tail.y⟩
  | Direction.Right => ⟨(tail.x + (U32 - 1)) % U32, tail.y⟩
  | Direction.Up => ⟨tail.x, (tail.y + 1) % U32⟩
  | Direction.Down => ⟨tail.x, (tail.y + (U32 - 1)) % U32⟩
  | Direction.None => tail

/-- Snake::add_body (src/main.cpp:295-318): compute the new tail cell, mark
it OccupiedSnake through the unchecked position index, and append it. -/
def addBody (st : GState) : GState :=
  let t := addBodyTailPos st.snake
  ⟨st.grid.setType t BlockType.OccupiedSnake,
   ⟨st.snake.head, st.snake.body ++ [t], st.snake.dir⟩⟩

/-- Snake::move (src/main.cpp:258-283).  On a throw, the error carries the
state as of the throw; `Snake::assert` runs before any mutation, so that is
the entry state.  On success: the head advances to `head + to_pos(dir)`
(unsigned wraparound), the body shifts, and if the target block was
fruit-occupied its colour is reset to green and `add_body()` fires. -/
def move (st : GState) : Except (SnekError × GState) GState :=
  let delta := to_pos st.snake.dir
  let oldPos := st.snake.head
  let newPos := vecAddU oldPos delta
  match snakeAssert st.grid newPos with
  | Except.error e => Except.error (e, st)
  | Except.ok _ =>
    let wasFruit := blockIsFruit (st.grid.getPos newPos)
    let g1 := updatePosGrid st.grid oldPos newPos
    let res := shiftBody g1 st.snake.body oldPos
    let s' : Snake := ⟨newPos, res.2, st.snake.dir⟩
    if wasFruit then
      let g3 := res.1.setColour newPos colourGreen
      Except.ok (addBody ⟨g3, s'⟩)
    else
      Except.ok ⟨res.1, s'⟩

/-- N successive `Snake::move` calls (all must succeed). -/
def moveN : Nat → GState → Except (SnekError × GState) GState
  | 0, st => Except.ok st
  | n + 1, st =>
    match move st with
    | Except.ok st₁ => moveN n st₁
    | Except.error e => Except.error e

/-- The fixed fruit palette (src/main.cpp:322-326). -/
def fruit_colours : List Colour := [colourRed, colourBlue, colourOrange]

/-- gen_fruit_colour (src/main.cpp:321-329): indexes the palette with a draw
from `gen(0, 3)`.  `none` models the out-of-range array read (undefined
behaviour) that the draw `3` produces. -/
def gen_fruit_colour (r : Nat) : Option Colour := fruit_colours.get? r

/-- The rejection-sampling loop of spawn_fruit (src/main.cpp:334-336):
successive draws from `gen(0, grid.len() - 1)` are taken until one indexes a
block that is not occupied; `none` models exhausting the provided draws
(the C++ loop would keep drawing). -/
def spawnPick (g : Grid) : List Nat → Option Nat
  | [] => none
  | r :: rs => if blockIsOccupied (g.getIdx r) then spawnPick g rs else some r

/-- spawn_fruit (src/main.cpp:331-342): pick a vacant block by rejection
sampling, mark it OccupiedFruit and give it a generated fruit colour.
`rs` are the successive index draws, `rc` the colour draw. -/
def spawn_fruit (g : Grid) (rs : List Nat) (rc : Nat) : Option Grid :=
  match spawnPick g rs with
  | none => none
  | some i =>
    match gen_fruit_colour rc with
    | some c => some ((g.setTypeIdx i BlockType.OccupiedFruit).setColourIdx i c)
    | none => none

/-- States reachable by the operations the spec's invariant quantifies over:
snake construction on a fresh grid, accepted direction changes, successful
steps, body growths (`add_body`, whose spec precondition is a non-None
heading), and successful fruit spawns.  Every random draw is constrained to
the support of the `randomiser::gen` call the source makes. -/
inductive Reachable : GState → Prop where
  | init (W H rx ry : Nat) :
      genSupport 0 W rx → genSupport 0 H ry →
      Reachable (snakeNew (mkGrid W H) rx ry)
  | setDir {st : GState} (d : Direction) {s' : Snake} :
      Reachable st → setDirection st.snake d = Except.ok s' →
      Reachable ⟨st.grid, s'⟩
  | step {st st' : GState} :
      Reachable st → move st = Except.ok st' → Reachable st'
  | grow {st : GState} :
      Reachable st → st.snake.dir ≠ Direction.None → Reachable (addBody st)
  | spawn {st : GState} (rs : List Nat) (rc : Nat) {g' : Grid} :
      Reachable st → (∀ r ∈ rs, genSupport 0 (st.grid.len - 1) r) →
      genSupport 0 3 rc → spawn_fruit st.grid rs rc = some g' →
      Reachable ⟨g', st.snake⟩

/-- GameStates from src/main.cpp:346-350. -/
inductive GameStates : Type where
  | Start
  | InProgress
  | End
deriving DecidableEq

/-- The arrow keys the event loop dispatches on (src/main.cpp:374-389);
`other` stands for every other key (the `default` case). -/
inductive Key : Type where
  | left
  | right
  | up
  | down
  | other
deriving DecidableEq

/-- The keyboard-to-direction mapping of the KeyPressed switch. -/
def keyDirection : Key → Option Direction
  | Key.left => some Direction.Left
  | Key.right => some Direction.Right
  | Key.up => some Direction.Up
  | Key.down => some Direction.Down
  | Key.other => none

/-- One KeyPressed event (src/main.cpp:372-394): `set_direction` is called
with the mapped direction; a `MotorException` is caught (the snake is left
as it was at the throw) and only the window title changes. -/
def handleKey (s : Snake) (k : Key) : Snake :=
  match keyDirection k with
  | some d =>
    match setDirection s d with
    | Except.ok s' => s'
    | Except.error es => es.2
  | none => s

/-- The inner `pollEvent` loop of one main-loop iteration, applied to the
KeyPressed events it delivers in order. -/
def processEvents (s : Snake) (ks : List Key) : Snake := ks.foldl handleKey s

/-- The state the main loop of src/main.cpp:352-446 carries across
iterations, restricted to the simulation core: the game state, the grid and
the snake.  (The clock and the two float accumulators are only read in the
InProgress branch and are untouched in the End branch.) -/
structure LoopState : Type where
  game : GameStates
  grid : Grid
  snake : Snake
deriving DecidableEq

/-- One main-loop iteration as executed when `state == GameStates::End`
(src/main.cpp:365-443): the event loop still runs — every KeyPressed event
dispatches `set_direction` on the snake — and the `End` case of the state
switch is empty, so the game state, the grid, and the timers are untouched.
Drawing is presentation-only and not modelled. -/
def endLoopIter (st : LoopState) (ks : List Key) : LoopState :=
  ⟨st.game, st.grid, processEvents st.snake ks⟩

/-- Any number of further main-loop iterations from the End state, each
receiving its own batch of key events. -/
def endLoopRun (st : LoopState) : List (List Key) → LoopState
  | [] => st
  | ks :: rest => endLoopRun (endLoopIter st ks) rest

/-- The exact reverse of a heading (spec-side notion used by the
set-direction claims). -/
def reverseOf : Direction → Direction
  | Direction.None => Direction.None
  | Direction.Left => Direction.Right
  | Direction.Right => Direction.Left
  | Direction.Up => Direction.Down
  | Direction.Down => Direction.Up

/-- One cell forward along a heading, with the same 32-bit wraparound
arithmetic the head movement uses. -/
def forwardP (d : Direction) (p : Pos) : Pos := vecAddU p (to_pos d)

/-- N cells forward along a heading. -/
def forwardN (d : Direction) : Nat → Pos → Pos
  | 0, p => p
  | n + 1, p => forwardN d n (forwardP d p)

/-- One cell opposite a heading, with the wraparound arithmetic of
`Snake::add_body` (spec-side notion: "one unit behind"). -/
def oneBehind (d : Direction) (p : Pos) : Pos :=
  match d with
  | Direction.Left => ⟨(p.x + 1) % U32, p.y⟩
  | Direction.Right => ⟨(p.x + (U32 - 1)) % U32, p.y⟩
  | Direction.Up => ⟨p.x, (p.y + 1) % U32⟩
  | Direction.Down => ⟨p.x, (p.y + (U32 - 1)) % U32⟩
  | Direction.None => p

/-- The straight chain of `n` cells trailing a head position against the
heading: cell `k` lies `k+1` units behind the head. -/
def trail (d : Direction) (p : Pos) : Nat → List Pos
  | 0 => []
  | n + 1 => oneBehind d p :: trail d (oneBehind d p) n

/-- A snake whose body trails straight behind its head along its heading. -/
abbrev Straight (s : Snake) : Prop := s.body = trail s.dir s.head s.body.length

/-- All in-bounds positions of a grid. -/
def gridPositions (g : Grid) : List Pos :=
  (List.range g.vertical).flatMap (fun y =>
    (List.range g.horizontal).map (fun x => ⟨x, y⟩))

/-- The in-bounds cells currently marked OccupiedSnake. -/
def occupiedSnakeCells (g : Grid) : List Pos :=
  (gridPositions g).filter (fun p => blockIsSnake (g.getPos p))

/-- The spec invariant: the OccupiedSnake cells are exactly the head plus
the body segments, and those positions are pairwise distinct. -/
abbrev snakeConsistent (st : GState) : Prop :=
  (occupiedSnakeCells st.grid).toFinset
      = (st.snake.head :: st.snake.body).toFinset
    ∧ (st.snake.head :: st.snake.body).Nodup

/-- The block at linear index `i` is not fruit-marked (vacuously true past
the storage). -/
def noFruitIdx (g : Grid) (i : Nat) : Prop :=
  ∀ b, g.blocks.get? i = some b → b.type ≠ BlockType.OccupiedFruit

lemma snakeAssert_err_oob_x {g : Grid} {p : Pos} (h : g.horizontal ≤ p.x) :
    snakeAssert g p = Except.error SnekError.oobHorizontal := by
  simp [snakeAssert, h]

lemma snakeAssert_err_oob_y {g : Grid} {p : Pos} (hx : p.x < g.horizontal)
    (h : g.vertical ≤ p.y) : snakeAssert g p = Except.error SnekError.oobVertical := by
  simp [snakeAssert, Nat.not_le.mpr hx, h]

lemma snakeAssert_err_collision {g : Grid} {p : Pos} (hx : p.x < g.horizontal)
    (hy : p.y < g.vertical) (h : blockIsSnake (g.getPos p) = true) :
    snakeAssert g p = Except.error SnekError.collision := by
  simp [snakeAssert, Nat.not_le.mpr hx, Nat.not_le.mpr hy, h]

lemma snakeAssert_ok {g : Grid} {p : Pos} (hx : p.x < g.horizontal)
    (hy : p.y < g.vertical) (h : blockIsSnake (g.getPos p) = false) :
    snakeAssert g p = Except.ok () := by
  simp [snakeAssert, Nat.not_le.mpr hx, Nat.not_le.mpr hy, h]

lemma move_of_assert_error {st : GState} {e : SnekError}
    (h : snakeAssert st.grid (vecAddU st.snake.head (to_pos st.snake.dir))
        = Except.error e) :
    move st = Except.error (e, st) := by
  simp only [move, h]

lemma move_of_fruit {st : GState}
    (ha : snakeAssert st.grid (vecAddU st.snake.head (to_pos st.snake.dir))
        = Except.ok ())
    (hf : blockIsFruit
        (st.grid.getPos (vecAddU st.snake.head (to_pos st.snake.dir))) = true) :
    move st = Except.ok (addBody
      ⟨(shiftBody (updatePosGrid st.grid st.snake.head
            (vecAddU st.snake.head (to_pos st.snake.dir)))
          st.snake.body st.snake.head).1.setColour
            (vecAddU st.snake.head (to_pos st.snake.dir)) colourGreen,
        ⟨vecAddU st.snake.head (to_pos st.snake.dir),
          (shiftBody (updatePosGrid st.grid st.snake.head
              (vecAddU st.snake.head (to_pos st.snake.dir)))
            st.snake.body st.snake.head).2, st.snake.dir⟩⟩) := by
  simp only [move, ha, hf, if_true]

lemma move_of_no_fruit {st : GState}
    (ha : snakeAssert st.grid (vecAddU st.snake.head (to_pos st.snake.dir))
        = Except.ok ())
    (hf : blockIsFruit
        (st.grid.getPos (vecAddU st.snake.head (to_pos st.snake.dir))) = false) :
    move st = Except.ok
      ⟨(shiftBody (updatePosGrid st.grid st.snake.head
            (vecAddU st.snake.head (to_pos st.snake.dir)))
          st.snake.body st.snake.head).1,
        ⟨vecAddU st.snake.head (to_pos st.snake.dir),
          (shiftBody (updatePosGrid st.grid st.snake.head
              (vecAddU st.snake.head (to_pos st.snake.dir)))
            st.snake.body st.snake.head).2, st.snake.dir⟩⟩ := by
  simp only [move, ha, hf, if_false, Bool.false_eq_true]

lemma shiftBody_snd (body : List Pos) :
    ∀ (g : Grid) (q : Pos), (shiftBody g body q).2 = (q :: body).dropLast := by
  induction body with
  | nil => intro g q; simp [shiftBody]
  | cons p rest ih =>
    intro g q
    simp only [shiftBody, ih, List.dropLast_cons₂]

lemma shiftBody_snd_length (body : List Pos) (g : Grid) (q : Pos) :
    (shiftBody g body q).2.length = body.length := by
  simp [shiftBody_snd]

/-- C4: for every current heading and requested direction, `set_direction`
fails (with the MotorException that models OppositeDirectionError) if and
only if the request is the exact reverse of the current heading and the
heading is not None; on failure the snake — its heading included — is
exactly as before, and on success only the heading changes, to the request. -/
theorem set_direction_spec (s : Snake) (d : Direction) :
    ((∃ e s₀, setDirection s d = Except.error (e, s₀))
        ↔ (s.dir ≠ Direction.None ∧ d = reverseOf s.dir))
    ∧ (∀ e s₀, setDirection s d = Except.error (e, s₀) →
        e = SnekError.motor ∧ s₀ = s)
    ∧ (∀ s', setDirection s d = Except.ok s' →
        s'.dir = d ∧ s'.head = s.head ∧ s'.body = s.body) := by
  obtain ⟨hd, bd, dir⟩ := s
  cases dir <;> cases d <;>
    simp [setDirection, assert_direction, reverseOf]

/-- Witness for `set_direction_spec`: with heading Left, requesting Right
fails, and with heading None, requesting Up succeeds and sets the heading. -/
theorem set_direction_spec_witness :
    (∃ e s₀, setDirection ⟨⟨0, 0⟩, [], Direction.Left⟩ Direction.Right
        = Except.error (e, s₀))
    ∧ (∀ s', setDirection ⟨⟨0, 0⟩, [], Direction.None⟩ Direction.Up
        = Except.ok s' → s'.dir = Direction.Up) := by
  refine ⟨(set_direction_spec ⟨⟨0, 0⟩, [], Direction.Left⟩ Direction.Right).1.mpr
      ⟨by decide, by decide⟩, ?_⟩
  intro s' h
  exact ((set_direction_spec ⟨⟨0, 0⟩, [], Direction.None⟩ Direction.Up).2.2 s' h).1

/-- C5: with a non-None heading, `move` validates the candidate head cell
(current head plus the heading's unit vector, with 32-bit wraparound) in
order: an out-of-bounds x or y yields an out-of-range error, otherwise a
snake-occupied target yields the collision error, and in both cases the
error carries the entry state unchanged — the failed move is atomic. -/
theorem move_failure_modes (st : GState) (hdir : st.snake.dir ≠ Direction.None) :
    ((st.grid.horizontal ≤ (vecAddU st.snake.head (to_pos st.snake.dir)).x
        ∨ st.grid.vertical ≤ (vecAddU st.snake.head (to_pos st.snake.dir)).y) →
      ∃ e, move st = Except.error (e, st) ∧ e.isOutOfBounds = true)
    ∧ ((vecAddU st.snake.head (to_pos st.snake.dir)).x < st.grid.horizontal →
       (vecAddU st.snake.head (to_pos st.snake.dir)).y < st.grid.vertical →
       blockIsSnake
           (st.grid.getPos (vecAddU st.snake.head (to_pos st.snake.dir))) = true →
       move st = Except.error (SnekError.collision, st)) := by
  constructor
  · intro hoob
    by_cases hx : st.grid.horizontal ≤ (vecAddU st.snake.head (to_pos st.snake.dir)).x
    · exact ⟨SnekError.oobHorizontal,
        move_of_assert_error (snakeAssert_err_oob_x hx), rfl⟩
    · have hy : st.grid.vertical ≤ (vecAddU st.snake.head (to_pos st.snake.dir)).y := by
        rcases hoob with h | h
        · exact absurd h hx
        · exact h
      exact ⟨SnekError.oobVertical,
        move_of_assert_error (snakeAssert_err_oob_y (Nat.not_le.mp hx) hy), rfl⟩
  · intro hx hy hsnake
    exact move_of_assert_error (snakeAssert_err_collision hx hy hsnake)

/-- Witness for `move_failure_modes`: on a 3-by-3 grid, a snake at (0,1)
heading Left wraps to x = 2^32 - 1 and fails out of bounds leaving the state
unchanged, and a snake at (0,1) heading Right into its own body cell (1,1)
fails with the collision error leaving the state unchanged. -/
theorem move_failure_modes_witness :
    (∃ e, move ⟨(mkGrid 3 3).setType ⟨0, 1⟩ BlockType.OccupiedSnake,
          ⟨⟨0, 1⟩, [], Direction.Left⟩⟩
        = Except.error (e, ⟨(mkGrid 3 3).setType ⟨0, 1⟩ BlockType.OccupiedSnake,
          ⟨⟨0, 1⟩, [], Direction.Left⟩⟩) ∧ e.isOutOfBounds = true)
    ∧ move ⟨((mkGrid 3 3).setType ⟨0, 1⟩ BlockType.OccupiedSnake).setType ⟨1, 1⟩
            BlockType.OccupiedSnake,
          ⟨⟨0, 1⟩, [⟨1, 1⟩], Direction.Right⟩⟩
        = Except.error (SnekError.collision,
          ⟨((mkGrid 3 3).setType ⟨0, 1⟩ BlockType.OccupiedSnake).setType ⟨1, 1⟩
            BlockType.OccupiedSnake, ⟨⟨0, 1⟩, [⟨1, 1⟩], Direction.Right⟩⟩) := by
  constructor
  · exact (move_failure_modes ⟨(mkGrid 3 3).setType ⟨0, 1⟩ BlockType.OccupiedSnake,
      ⟨⟨0, 1⟩, [], Direction.Left⟩⟩ (by decide)).1 (Or.inl (by decide))
  · exact (move_failure_modes ⟨((mkGrid 3 3).setType ⟨0, 1⟩
        BlockType.OccupiedSnake).setType ⟨1, 1⟩ BlockType.OccupiedSnake,
      ⟨⟨0, 1⟩, [⟨1, 1⟩], Direction.Right⟩⟩ (by decide)).2
      (by decide) (by decide) (by decide)

/-- C1: the construction draw (2, 2) on a 2-by-2 grid — inside the support of
the inclusive `gen(0, horizontal())` and `gen(0, vertical())` draws — marks
the aliased storage cell (0, 1) OccupiedSnake while the head is recorded at
(2, 0), so the reachable initial state already violates the invariant that
the OccupiedSnake cells are exactly the head plus the body. -/
theorem snake_cells_invariant_violated :
    ∃ st : GState, Reachable st ∧ ¬ snakeConsistent st := by
  refine ⟨snakeNew (mkGrid 2 2) 2 0,
    Reachable.init 2 2 2 0 ⟨Nat.zero_le _, by decide⟩ ⟨Nat.zero_le _, by decide⟩, ?_⟩
  decide

/-- C2 counterexample: on a 2-by-2 grid the position (2, 0) has x ≥ width,
yet the position-taking index operation does not fail: the read returns the
block stored at linear index 2 — which is the cell (0, 1) — and a write
through the same position mutates that aliased cell. -/
theorem grid_oob_access_counterexample :
    (mkGrid 2 2).horizontal ≤ 2
    ∧ (mkGrid 2 2).getPos ⟨2, 0⟩ = some defaultBlock
    ∧ ((mkGrid 2 2).setType ⟨2, 0⟩ BlockType.OccupiedSnake).getPos ⟨0, 1⟩
        = some ⟨BlockType.OccupiedSnake, colourGreen⟩ := by
  decide

/-- C3: `randomiser::gen` draws from an inclusive range, so `Snake::Snake` on
a 2-by-2 grid can draw the head (2, 2): a reachable initial state whose head
has x ≥ width and y ≥ height, and whose marking write computes a linear index
past the end of the block storage. -/
theorem snake_init_head_out_of_bounds :
    ∃ st : GState, Reachable st
      ∧ st.grid.horizontal ≤ st.snake.head.x
      ∧ st.grid.vertical ≤ st.snake.head.y
      ∧ st.grid.blocks.length ≤ st.grid.idx st.snake.head := by
  refine ⟨snakeNew (mkGrid 2 2) 2 2,
    Reachable.init 2 2 2 2 ⟨Nat.zero_le _, by decide⟩ ⟨Nat.zero_le _, by decide⟩,
    by decide, by decide, by decide⟩

/-- C8: the colour draw comes from `gen(0, 3)`, whose support contains 3,
but the palette has exactly three entries, so the draw 3 reads past the end
of `fruit_colours` (undefined behaviour, modelled as `none`): the chosen
colour is not always a member of the palette. -/
theorem gen_fruit_colour_off_palette :
    genSupport 0 3 3 ∧ fruit_colours.length = 3 ∧ gen_fruit_colour 3 = none := by
  exact ⟨⟨Nat.zero_le _, Nat.le_refl 3⟩, by decide, by decide⟩

/-- C9 counterexample: in the End state the event loop still dispatches
`set_direction`, so a main-loop iteration that receives an Up key press
mutates the snake's heading from Left to Up — the snake is not immune to
further mutation after End. -/
theorem end_state_heading_mutates :
    (endLoopIter ⟨GameStates.End, mkGrid 2 2, ⟨⟨0, 0⟩, [], Direction.Left⟩⟩
        [Key.up]).game = GameStates.End
    ∧ (endLoopIter ⟨GameStates.End, mkGrid 2 2, ⟨⟨0, 0⟩, [], Direction.Left⟩⟩
        [Key.up]).snake.dir = Direction.Up
    ∧ Direction.Up ≠ Direction.Left := by
  decide

/-- C6 counterexample: a snake bent at the tail — head (0, 1), single body
segment (1, 1), heading Down — steps onto the fruit at (0, 2).  The step
succeeds and grows the body, but the appended tail is (0, 0): not the cell
(1, 1) the old tail vacated during this step, and not the cell (1, 0) one
unit behind the pre-step tail opposite the heading.  (It is one unit behind
the post-shift tail (0, 1).) -/
theorem move_fruit_tail_counterexample :
    ∃ st' : GState,
      move ⟨(((mkGrid 3 3).setType ⟨0, 1⟩ BlockType.OccupiedSnake).setType ⟨1, 1⟩
            BlockType.OccupiedSnake).setType ⟨0, 2⟩ BlockType.OccupiedFruit,
          ⟨⟨0, 1⟩, [⟨1, 1⟩], Direction.Down⟩⟩ = Except.ok st'
      ∧ st'.snake.body.length = 1 + 1
      ∧ st'.snake.body.getLast? = some ⟨0, 0⟩
      ∧ (⟨0, 0⟩ : Pos) ≠ ⟨1, 1⟩
      ∧ oneBehind Direction.Down ⟨1, 1⟩ = ⟨1, 0⟩
      ∧ (⟨0, 0⟩ : Pos) ≠ ⟨1, 0⟩ := by
  exact ⟨_, rfl, by decide, by decide, by decide, by decide, by decide⟩

/-- C7 counterexample: an L-shaped snake — head (2, 1), body (1, 1), (1, 2),
heading Right — makes one successful step with no fruit anywhere; the second
body segment moves from (1, 2) to (1, 1), not to the translated cell (2, 2),
so a single successful step does not translate every segment by the unit
vector of the heading. -/
theorem move_translation_counterexample :
    ∃ st' : GState,
      moveN 1 ⟨(((mkGrid 4 4).setType ⟨2, 1⟩ BlockType.OccupiedSnake).setType ⟨1, 1⟩
            BlockType.OccupiedSnake).setType ⟨1, 2⟩ BlockType.OccupiedSnake,
          ⟨⟨2, 1⟩, [⟨1, 1⟩, ⟨1, 2⟩], Direction.Right⟩⟩ = Except.ok st'
      ∧ st'.snake.body.length = 2
      ∧ st'.snake.body.get? 1 = some ⟨1, 1⟩
      ∧ forwardN Direction.Right 1 ⟨1, 2⟩ = ⟨2, 2⟩
      ∧ (⟨1, 1⟩ : Pos) ≠ ⟨2, 2⟩ := by
  exact ⟨_, rfl, by decide, by decide, by decide, by decide⟩

/-- First states of the reachable trace used by `add_body_unsafe_tail`:
construction at (1, 0) on a 3-by-3 grid, then an accepted Down request. -/
def traceB0 : GState := snakeNew (mkGrid 3 3) 1 0

def traceB1 : GState :=
  ⟨traceB0.grid, ⟨traceB0.snake.head, traceB0.snake.body, Direction.Down⟩⟩

/-- States of the second reachable trace used by `add_body_unsafe_tail`:
construction at (0, 1) on a 3-by-3 grid, a fruit spawned at index 4 (cell
(1, 1)), an accepted Right request, the successful fruit-eating step, then
accepted Up and Left requests, leaving the snake bent with the head at
(1, 1) and the tail at (0, 1) while heading Left. -/
def traceA0 : GState := snakeNew (mkGrid 3 3) 0 1

def traceA1 : GState :=
  ⟨(traceA0.grid.setTypeIdx 4 BlockType.OccupiedFruit).setColourIdx 4 colourRed,
   traceA0.snake⟩

def traceA2 : GState :=
  ⟨traceA1.grid, ⟨traceA1.snake.head, traceA1.snake.body, Direction.Right⟩⟩

def traceA3 : GState :=
  match move traceA2 with
  | Except.ok st => st
  | Except.error e => e.2

def traceA4 : GState :=
  ⟨traceA3.grid, ⟨traceA3.snake.head, traceA3.snake.body, Direction.Up⟩⟩

def traceA5 : GState :=
  ⟨traceA4.grid, ⟨traceA4.snake.head, traceA4.snake.body, Direction.Left⟩⟩

/-- C10: a reachable state with a non-None heading where `add_body` computes
a new tail outside the grid — the tail (1, 0) with heading Down wraps to
(1, 2^32 - 1), whose unchecked linear index lies far past the block storage —
and a reachable state where the computed new tail cell is already
snake-occupied rather than vacant (a snake bent back on itself). -/
theorem add_body_unsafe_tail :
    (∃ st : GState, Reachable st ∧ st.snake.dir ≠ Direction.None
        ∧ st.grid.vertical ≤ (addBodyTailPos st.snake).y
        ∧ st.grid.blocks.length ≤ st.grid.idx (addBodyTailPos st.snake))
    ∧ (∃ st : GState, Reachable st ∧ st.snake.dir ≠ Direction.None
        ∧ blockIsSnake (st.grid.getPos (addBodyTailPos st.snake)) = true) := by
  constructor
  · have h0 : Reachable traceB0 :=
      Reachable.init 3 3 1 0 ⟨Nat.zero_le _, by decide⟩ ⟨Nat.zero_le _, by decide⟩
    have h1 : Reachable traceB1 := Reachable.setDir Direction.Down h0 rfl
    exact ⟨traceB1, h1, by decide, by decide, by decide⟩
  · have h0 : Reachable traceA0 :=
      Reachable.init 3 3 0 1 ⟨Nat.zero_le _, by decide⟩ ⟨Nat.zero_le _, by decide⟩
    have h1 : Reachable traceA1 :=
      Reachable.spawn [4] 0 h0 (by decide) ⟨Nat.zero_le _, by decide⟩ (by decide)
    have h2 : Reachable traceA2 := Reachable.setDir Direction.Right h1 rfl
    have h3 : Reachable traceA3 := Reachable.step h2 rfl
    have h4 : Reachable traceA4 := Reachable.setDir Direction.Up h3 rfl
    have h5 : Reachable traceA5 := Reachable.setDir Direction.Left h4 rfl
    exact ⟨traceA5, h5, by decide, by decide⟩

lemma getPos_isSome_iff (g : Grid) (p : Pos) :
    (g.getPos p).isSome = true ↔ g.idx p < g.blocks.length := by
  rw [Grid.getPos, List.get?_eq_getElem?, Option.isSome_iff_ne_none, ne_eq,
    List.getElem?_eq_none_iff]
  omega

lemma idx_lt_of_in_bounds {g : Grid} {p : Pos} (hwf : g.WF)
    (hx : p.x < g.horizontal) (hy : p.y < g.vertical) :
    g.idx p < g.blocks.length := by
  have hmul : (p.y + 1) * g.horizontal ≤ g.vertical * g.horizontal :=
    Nat.mul_le_mul_right g.horizontal hy
  have : g.idx p < (p.y + 1) * g.horizontal := by
    rw [Grid.idx, Nat.succ_mul]
    omega
  rw [hwf, Nat.mul_comm]
  omega

/-- C2 (amended): the position-taking `Grid` index operations perform no
bounds check at all — an access succeeds exactly when the linear storage
index `x + y * width` is inside the block vector, so every in-bounds
position succeeds, and out-of-bounds positions can alias other cells rather
than fail; the OutOfBounds failure for x ≥ width or y ≥ height is raised by
`Snake::assert`, not by `Grid`. -/
theorem grid_index_unchecked (g : Grid) (p : Pos) (hwf : g.WF) :
    (p.x < g.horizontal → p.y < g.vertical → (g.getPos p).isSome = true)
    ∧ ((g.getPos p).isSome = true ↔ g.idx p < g.blocks.length)
    ∧ ((∃ e, snakeAssert g p = Except.error e ∧ e.isOutOfBounds = true)
        ↔ (g.horizontal ≤ p.x ∨ g.vertical ≤ p.y)) := by
  refine ⟨?_, getPos_isSome_iff g p, ?_⟩
  · intro hx hy
    exact (getPos_isSome_iff g p).mpr (idx_lt_of_in_bounds hwf hx hy)
  · constructor
    · rintro ⟨e, he, hoob⟩
      by_contra hcon
      push_neg at hcon
      obtain ⟨hx, hy⟩ := hcon
      by_cases hs : blockIsSnake (g.getPos p) = true
      · rw [snakeAssert_err_collision hx hy hs] at he
        cases he
        cases hoob
      · rw [snakeAssert_ok hx hy (Bool.not_eq_true _ ▸ hs)] at he
        cases he
    · intro h
      by_cases hx : g.horizontal ≤ p.x
      · exact ⟨SnekError.oobHorizontal, snakeAssert_err_oob_x hx, rfl⟩
      · have hy : g.vertical ≤ p.y := by
          rcases h with h | h
          · exact absurd h hx
          · exact h
        exact ⟨SnekError.oobVertical,
          snakeAssert_err_oob_y (Nat.not_le.mp hx) hy, rfl⟩

/-- Witness for `grid_index_unchecked`: on a well-formed 2-by-2 grid, the
in-bounds position (1, 1) succeeds, and for (2, 0) the assert raises an
out-of-bounds error. -/
theorem grid_index_unchecked_witness :
    ((mkGrid 2 2).getPos ⟨1, 1⟩).isSome = true
    ∧ (∃ e, snakeAssert (mkGrid 2 2) ⟨2, 0⟩ = Except.error e
        ∧ e.isOutOfBounds = true) := by
  constructor
  · exact (grid_index_unchecked (mkGrid 2 2) ⟨1, 1⟩ (by decide)).1
      (by decide) (by decide)
  · exact (grid_index_unchecked (mkGrid 2 2) ⟨2, 0⟩ (by decide)).2.2.mpr
      (Or.inl (by decide))

lemma addBodyTailPos_eq (s : Snake) :
    addBodyTailPos s = oneBehind s.dir (s.body.getLast?.getD s.head) := by
  obtain ⟨hd, bd, d⟩ := s
  cases d <;> rfl

lemma blockIsSnake_false_of_fruit {o : Option Block}
    (h : blockIsFruit o = true) : blockIsSnake o = false := by
  rcases o with _ | ⟨t, c⟩
  · rfl
  · cases t <;> simp_all [blockIsFruit, blockIsSnake, Block.isFruitOccupied,
      Block.isSnakeOccupied]

@[simp] lemma setBlockAt_horizontal (g : Grid) (j : Nat) (f : Block → Block) :
    (g.setBlockAt j f).horizontal = g.horizontal := by
  unfold Grid.setBlockAt
  cases g.blocks.get? j <;> rfl

@[simp] lemma setTypeIdx_horizontal (g : Grid) (j : Nat) (t : BlockType) :
    (g.setTypeIdx j t).horizontal = g.horizontal :=
  setBlockAt_horizontal g j _

@[simp] lemma setColourIdx_horizontal (g : Grid) (j : Nat) (c : Colour) :
    (g.setColourIdx j c).horizontal = g.horizontal :=
  setBlockAt_horizontal g j _

@[simp] lemma setType_horizontal (g : Grid) (p : Pos) (t : BlockType) :
    (g.setType p t).horizontal = g.horizontal :=
  setBlockAt_horizontal g _ _

@[simp] lemma setColour_horizontal (g : Grid) (p : Pos) (c : Colour) :
    (g.setColour p c).horizontal = g.horizontal :=
  setBlockAt_horizontal g _ _

@[simp] lemma updatePosGrid_horizontal (g : Grid) (o n : Pos) :
    (updatePosGrid g o n).horizontal = g.horizontal := by
  unfold updatePosGrid
  simp

@[simp] lemma shiftBody_fst_horizontal (body : List Pos) :
    ∀ (g : Grid) (q : Pos), (shiftBody g body q).1.horizontal = g.horizontal := by
  induction body with
  | nil => intro g q; rfl
  | cons p rest ih =>
    intro g q
    show (shiftBody (updatePosGrid g p q) rest p).1.horizontal = g.horizontal
    rw [ih]
    simp

lemma idx_congr {g' g : Grid} (p : Pos) (h : g'.horizontal = g.horizontal) :
    g'.idx p = g.idx p := by
  unfold Grid.idx
  rw [h]

lemma noFruitIdx_setBlockAt {g : Grid} {i j : Nat} {f : Block → Block}
    (hg : noFruitIdx g i)
    (hf : ∀ b, b.type ≠ BlockType.OccupiedFruit →
      (f b).type ≠ BlockType.OccupiedFruit) :
    noFruitIdx (g.setBlockAt j f) i := by
  intro b hb
  unfold Grid.setBlockAt at hb
  cases hj : g.blocks.get? j with
  | none =>
    rw [hj] at hb
    exact hg b hb
  | some bj =>
    rw [hj] at hb
    by_cases hij : i = j
    · subst hij
      rw [List.get?_set_eq, hj] at hb
      simp only [Option.map_eq_map, Option.map_some'] at hb
      cases hb
      exact hf bj (hg bj hj)
    · rw [List.get?_set_ne _ _ (fun hji => hij hji.symm)] at hb
      exact hg b hb

lemma noFruitIdx_setTypeIdx {g : Grid} {i j : Nat} {t : BlockType}
    (hg : noFruitIdx g i) (ht : t ≠ BlockType.OccupiedFruit) :
    noFruitIdx (g.setTypeIdx j t) i :=
  noFruitIdx_setBlockAt hg (fun _ _ => ht)

lemma noFruitIdx_setColourIdx {g : Grid} {i j : Nat} {c : Colour}
    (hg : noFruitIdx g i) : noFruitIdx (g.setColourIdx j c) i :=
  noFruitIdx_setBlockAt hg (fun _ hb => hb)

lemma noFruitIdx_setTypeIdx_self (g : Grid) (j : Nat) {t : BlockType}
    (ht : t ≠ BlockType.OccupiedFruit) : noFruitIdx (g.setTypeIdx j t) j := by
  intro b hb
  unfold Grid.setTypeIdx Grid.setBlockAt at hb
  cases hj : g.blocks.get? j with
  | none =>
    rw [hj] at hb
    rw [hj] at hb
    cases hb
  | some bj =>
    rw [hj] at hb
    rw [List.get?_set_eq, hj] at hb
    simp only [Option.map_eq_map, Option.map_some'] at hb
    cases hb
    exact ht

lemma noFruitIdx_shiftBody (body : List Pos) :
    ∀ (g : Grid) (q : Pos) (i : Nat),
      noFruitIdx g i → noFruitIdx (shiftBody g body q).1 i := by
  induction body with
  | nil => intro g q i h; exact h
  | cons p rest ih =>
    intro g q i h
    show noFruitIdx (shiftBody (updatePosGrid g p q) rest p).1 i
    apply ih
    unfold updatePosGrid Grid.setType
    exact noFruitIdx_setTypeIdx (noFruitIdx_setTypeIdx h (by decide)) (by decide)

lemma blockIsFruit_false_of_noFruitIdx {g : Grid} {p : Pos}
    (h : noFruitIdx g (g.idx p)) : blockIsFruit (g.getPos p) = false := by
  unfold blockIsFruit Grid.getPos
  cases hb : g.blocks.get? (g.idx p) with
  | none => rfl
  | some b => simp [Block.isFruitOccupied, h b hb]

lemma fruit_cleared_chain (g : Grid) (headp tgt t' : Pos) (body : List Pos)
    (c : Colour) :
    blockIsFruit
      (((((shiftBody (updatePosGrid g headp tgt) body headp).1.setColour tgt
          c).setType t' BlockType.OccupiedSnake)).getPos tgt) = false := by
  apply blockIsFruit_false_of_noFruitIdx
  have hh : ((((shiftBody (updatePosGrid g headp tgt) body headp).1.setColour tgt
      c).setType t' BlockType.OccupiedSnake)).horizontal = g.horizontal := by
    simp
  rw [idx_congr tgt hh]
  unfold Grid.setType
  apply noFruitIdx_setTypeIdx _ (by decide)
  unfold Grid.setColour
  apply noFruitIdx_setColourIdx
  apply noFruitIdx_shiftBody
  unfold updatePosGrid Grid.setType
  have hv : ((g.setTypeIdx (g.idx headp) BlockType.Vacant).idx tgt) = g.idx tgt :=
    idx_congr tgt (setTypeIdx_horizontal g _ _)
  rw [hv]
  exact noFruitIdx_setTypeIdx_self _ _ (by decide)

/-- C6 (amended): a step whose in-bounds target cell is fruit-occupied
succeeds; the head takes the target cell, the body shift completes (each
segment takes the position its predecessor held before the step), the
fruit marking of the consumed cell is cleared, and `add_body` grows the body
by exactly one segment in the same step, the appended tail lying one unit
behind the post-shift tail (the head, if the body was empty) directly
opposite the current heading, with 32-bit wraparound.  (The appended tail
coincides with the cell the pre-step tail vacated only when the tail trails
its predecessor along the heading, e.g. a straight snake — see the
counterexample for a snake bent at the tail.) -/
theorem move_fruit_growth (st : GState) (hwf : st.grid.WF)
    (hdir : st.snake.dir ≠ Direction.None)
    (hx : (vecAddU st.snake.head (to_pos st.snake.dir)).x < st.grid.horizontal)
    (hy : (vecAddU st.snake.head (to_pos st.snake.dir)).y < st.grid.vertical)
    (hfruit : blockIsFruit
      (st.grid.getPos (vecAddU st.snake.head (to_pos st.snake.dir))) = true) :
    ∃ st' : GState, move st = Except.ok st'
      ∧ st'.snake.head = vecAddU st.snake.head (to_pos st.snake.dir)
      ∧ st'.snake.body
          = (st.snake.head :: st.snake.body).dropLast
            ++ [oneBehind st.snake.dir
                (((st.snake.head :: st.snake.body).dropLast).getLast?.getD
                  (vecAddU st.snake.head (to_pos st.snake.dir)))]
      ∧ st'.snake.body.length = st.snake.body.length + 1
      ∧ blockIsFruit
          ((st'.grid).getPos (vecAddU st.snake.head (to_pos st.snake.dir)))
            = false := by
  have hsnake := blockIsSnake_false_of_fruit hfruit
  have ha := snakeAssert_ok hx hy hsnake
  have hmv := move_of_fruit ha hfruit
  refine ⟨_, hmv, rfl, ?_, ?_, ?_⟩
  · show (shiftBody (updatePosGrid st.grid st.snake.head
        (vecAddU st.snake.head (to_pos st.snake.dir)))
          st.snake.body st.snake.head).2
        ++ [addBodyTailPos ⟨vecAddU st.snake.head (to_pos st.snake.dir),
          (shiftBody (updatePosGrid st.grid st.snake.head
            (vecAddU st.snake.head (to_pos st.snake.dir)))
              st.snake.body st.snake.head).2, st.snake.dir⟩] = _
    rw [addBodyTailPos_eq, shiftBody_snd]
  · show ((shiftBody (updatePosGrid st.grid st.snake.head
        (vecAddU st.snake.head (to_pos st.snake.dir)))
          st.snake.body st.snake.head).2
        ++ [addBodyTailPos _]).length = st.snake.body.length + 1
    rw [List.length_append, shiftBody_snd_length]
    rfl
  · exact fruit_cleared_chain st.grid st.snake.head
      (vecAddU st.snake.head (to_pos st.snake.dir)) _ st.snake.body colourGreen

/-- Witness for `move_fruit_growth`: a length-1 snake at (0, 0) heading
Right onto a fruit at (1, 0) on a 3-by-3 grid; the step succeeds, clears the
fruit, and appends the tail (0, 0) — one unit behind the new head, the cell
the head vacated. -/
theorem move_fruit_growth_witness :
    ∃ st' : GState,
      move ⟨((mkGrid 3 3).setType ⟨0, 0⟩ BlockType.OccupiedSnake).setType ⟨1, 0⟩
            BlockType.OccupiedFruit, ⟨⟨0, 0⟩, [], Direction.Right⟩⟩
        = Except.ok st'
      ∧ st'.snake.head = vecAddU ⟨0, 0⟩ (to_pos Direction.Right)
      ∧ st'.snake.body.length = 0 + 1
      ∧ blockIsFruit (st'.grid.getPos (vecAddU ⟨0, 0⟩ (to_pos Direction.Right)))
          = false := by
  obtain ⟨st', h1, h2, h3, h4, h5⟩ :=
    move_fruit_growth ⟨((mkGrid 3 3).setType ⟨0, 0⟩
        BlockType.OccupiedSnake).setType ⟨1, 0⟩ BlockType.OccupiedFruit,
      ⟨⟨0, 0⟩, [], Direction.Right⟩⟩
      (by decide) (by decide) (by decide) (by decide) (by decide)
  exact ⟨st', h1, h2, h4, h5⟩

lemma emod_eq (a b : Int) : a.emod b = a % b := rfl

@[simp] lemma pos_x_mk (a b : Nat) : (Pos.mk a b).x = a := rfl

@[simp] lemma pos_y_mk (a b : Nat) : (Pos.mk a b).y = b := rfl

lemma forwardP_lt (d : Direction) (p : Pos) :
    (forwardP d p).x < U32 ∧ (forwardP d p).y < U32 := by
  obtain ⟨x, y⟩ := p
  unfold forwardP vecAddU U32
  dsimp only
  constructor <;> · rw [emod_eq]; omega

lemma oneBehind_lt {p : Pos} (d : Direction) (hx : p.x < U32) (hy : p.y < U32) :
    (oneBehind d p).x < U32 ∧ (oneBehind d p).y < U32 := by
  obtain ⟨x, y⟩ := p
  simp only [pos_x_mk, pos_y_mk, U32] at hx hy
  cases d <;>
    · simp only [oneBehind, U32, pos_x_mk, pos_y_mk]
      constructor <;> omega

lemma forwardP_oneBehind {p : Pos} (d : Direction) (hx : p.x < U32)
    (hy : p.y < U32) : forwardP d (oneBehind d p) = p := by
  obtain ⟨x, y⟩ := p
  simp only [pos_x_mk, pos_y_mk, U32] at hx hy
  cases d <;>
    · simp only [forwardP, vecAddU, oneBehind, to_pos, U32, Pos.mk.injEq,
        emod_eq, pos_x_mk, pos_y_mk]
      constructor <;> omega

lemma oneBehind_forwardP {p : Pos} (d : Direction) (hx : p.x < U32)
    (hy : p.y < U32) : oneBehind d (forwardP d p) = p := by
  obtain ⟨x, y⟩ := p
  simp only [pos_x_mk, pos_y_mk, U32] at hx hy
  cases d <;>
    · simp only [forwardP, vecAddU, oneBehind, to_pos, U32, Pos.mk.injEq,
        emod_eq, pos_x_mk, pos_y_mk]
      constructor <;> omega

lemma trail_length (d : Direction) : ∀ (n : Nat) (p : Pos),
    (trail d p n).length = n := by
  intro n
  induction n with
  | zero => intro p; rfl
  | succ n ih =>
    intro p
    show (oneBehind d p :: trail d (oneBehind d p) n).length = n + 1
    rw [List.length_cons, ih]

lemma map_forwardP_trail (d : Direction) : ∀ (n : Nat) (p : Pos),
    p.x < U32 → p.y < U32 →
    (trail d p n).map (forwardP d) = trail d (forwardP d p) n := by
  intro n
  induction n with
  | zero => intro p _ _; rfl
  | succ n ih =>
    intro p hx hy
    show forwardP d (oneBehind d p) :: (trail d (oneBehind d p) n).map (forwardP d)
        = oneBehind d (forwardP d p) :: trail d (oneBehind d (forwardP d p)) n
    obtain ⟨hbx, hby⟩ := oneBehind_lt d hx hy
    rw [forwardP_oneBehind d hx hy, oneBehind_forwardP d hx hy,
      ih (oneBehind d p) hbx hby, forwardP_oneBehind d hx hy]

lemma trail_dropLast (d : Direction) : ∀ (n : Nat) (p : Pos),
    (trail d p (n + 1)).dropLast = trail d p n := by
  intro n
  induction n with
  | zero => intro p; rfl
  | succ n ih =>
    intro p
    show (oneBehind d p :: trail d (oneBehind d p) (n + 1)).dropLast
        = oneBehind d p :: trail d (oneBehind d p) n
    rw [show trail d (oneBehind d p) (n + 1)
        = oneBehind d (oneBehind d p)
          :: trail d (oneBehind d (oneBehind d p)) n from rfl,
      List.dropLast_cons₂,
      ← show trail d (oneBehind d p) (n + 1)
        = oneBehind d (oneBehind d p)
          :: trail d (oneBehind d (oneBehind d p)) n from rfl,
      ih (oneBehind d p)]

lemma dropLast_cons_trail {p : Pos} (d : Direction) (hx : p.x < U32)
    (hy : p.y < U32) (n : Nat) :
    (p :: trail d p n).dropLast = trail d (forwardP d p) n := by
  cases n with
  | zero => rfl
  | succ n =>
    rw [show trail d p (n + 1)
        = oneBehind d p :: trail d (oneBehind d p) n from rfl,
      List.dropLast_cons₂,
      ← show trail d p (n + 1)
        = oneBehind d p :: trail d (oneBehind d p) n from rfl,
      trail_dropLast d n p,
      show trail d (forwardP d p) (n + 1)
        = oneBehind d (forwardP d p)
          :: trail d (oneBehind d (forwardP d p)) n from rfl,
      oneBehind_forwardP d hx hy]

lemma move_straight_step {st st' : GState}
    (hx : st.snake.head.x < U32) (hy : st.snake.head.y < U32)
    (hs : Straight st.snake) (hok : move st = Except.ok st')
    (hlen : st'.snake.body.length = st.snake.body.length) :
    st'.snake.head = forwardP st.snake.dir st.snake.head
    ∧ st'.snake.body = st.snake.body.map (forwardP st.snake.dir)
    ∧ st'.snake.dir = st.snake.dir
    ∧ Straight st'.snake
    ∧ st'.snake.head.x < U32 ∧ st'.snake.head.y < U32 := by
  cases ha : snakeAssert st.grid (vecAddU st.snake.head (to_pos st.snake.dir)) with
  | error e =>
    rw [move_of_assert_error ha] at hok
    cases hok
  | ok u =>
    cases u
    cases hf : blockIsFruit
        (st.grid.getPos (vecAddU st.snake.head (to_pos st.snake.dir))) with
    | true =>
      rw [move_of_fruit ha hf] at hok
      cases hok
      exfalso
      have : (((shiftBody (updatePosGrid st.grid st.snake.head
            (vecAddU st.snake.head (to_pos st.snake.dir)))
              st.snake.body st.snake.head).2
            ++ [addBodyTailPos _]).length) = st.snake.body.length := hlen
      simp only [List.length_append, shiftBody_snd_length,
        List.length_singleton] at this
      omega
    | false =>
      rw [move_of_no_fruit ha hf] at hok
      cases hok
      have hbody : (shiftBody (updatePosGrid st.grid st.snake.head
            (vecAddU st.snake.head (to_pos st.snake.dir)))
              st.snake.body st.snake.head).2
          = st.snake.body.map (forwardP st.snake.dir) := by
        rw [shiftBody_snd]
        have haux : ∀ (n : Nat), st.snake.body = trail st.snake.dir st.snake.head n →
            (st.snake.head :: st.snake.body).dropLast
              = st.snake.body.map (forwardP st.snake.dir) := by
          intro n h
          rw [h, dropLast_cons_trail st.snake.dir hx hy n,
            map_forwardP_trail st.snake.dir n st.snake.head hx hy]
        exact haux st.snake.body.length hs
      refine ⟨rfl, hbody, rfl, ?_, (forwardP_lt _ _).1, (forwardP_lt _ _).2⟩
      show Straight ⟨vecAddU st.snake.head (to_pos st.snake.dir),
        (shiftBody (updatePosGrid st.grid st.snake.head
          (vecAddU st.snake.head (to_pos st.snake.dir)))
            st.snake.body st.snake.head).2, st.snake.dir⟩
      unfold Straight
      show (shiftBody _ _ _).2
          = trail st.snake.dir (vecAddU st.snake.head (to_pos st.snake.dir))
            (shiftBody _ _ _).2.length
      rw [hbody, List.length_map]
      have haux2 : ∀ (n : Nat), st.snake.body = trail st.snake.dir st.snake.head n →
          st.snake.body.map (forwardP st.snake.dir)
            = trail st.snake.dir (vecAddU st.snake.head (to_pos st.snake.dir))
              st.snake.body.length := by
        intro n h
        have hlen' : st.snake.body.length = n := by rw [h, trail_length]
        rw [hlen', h, map_forwardP_trail st.snake.dir n st.snake.head hx hy]
        rfl
      exact haux2 st.snake.body.length hs

lemma move_body_length_le {st st' : GState} (hok : move st = Except.ok st') :
    st.snake.body.length ≤ st'.snake.body.length := by
  cases ha : snakeAssert st.grid (vecAddU st.snake.head (to_pos st.snake.dir)) with
  | error e =>
    rw [move_of_assert_error ha] at hok
    cases hok
  | ok u =>
    cases u
    cases hf : blockIsFruit
        (st.grid.getPos (vecAddU st.snake.head (to_pos st.snake.dir))) with
    | true =>
      rw [move_of_fruit ha hf] at hok
      cases hok
      show st.snake.body.length ≤ (_ ++ [addBodyTailPos _]).length
      rw [List.length_append, shiftBody_snd_length]
      omega
    | false =>
      rw [move_of_no_fruit ha hf] at hok
      cases hok
      show st.snake.body.length ≤ (shiftBody _ _ _).2.length
      rw [shiftBody_snd_length]

lemma moveN_body_length_le : ∀ (N : Nat) {st st' : GState},
    moveN N st = Except.ok st' →
    st.snake.body.length ≤ st'.snake.body.length := by
  intro N
  induction N with
  | zero =>
    intro st st' hok
    cases hok
    exact Nat.le_refl _
  | succ n ih =>
    intro st st' hok
    rw [moveN] at hok
    cases hmv : move st with
    | error e => rw [hmv] at hok; cases hok
    | ok st₁ =>
      rw [hmv] at hok
      exact Nat.le_trans (move_body_length_le hmv) (ih hok)

/-- C7 (amended): for a snake whose body trails straight behind the head
along its (non-None) heading, after N successful steps with that constant
heading during which no fruit is consumed — equivalently, the body length is
unchanged, since each step grows the body exactly when it consumes fruit —
the head and every body segment have been translated by N times the unit
vector of the heading (with 32-bit wraparound arithmetic), so the segments'
positions relative to the head are unchanged.  (For a snake bent at a
corner this fails after a single step — see the counterexample.) -/
theorem moveN_straight_translation (N : Nat) (st st' : GState)
    (hx : st.snake.head.x < U32) (hy : st.snake.head.y < U32)
    (hs : Straight st.snake) (hdir : st.snake.dir ≠ Direction.None)
    (hok : moveN N st = Except.ok st')
    (hlen : st'.snake.body.length = st.snake.body.length) :
    st'.snake.head = forwardN st.snake.dir N st.snake.head
    ∧ st'.snake.body = st.snake.body.map (forwardN st.snake.dir N) := by
  induction N generalizing st with
  | zero =>
    cases hok
    constructor
    · rfl
    · show st'.snake.body = st'.snake.body.map (fun p => p)
      rw [List.map_id']
  | succ n ih =>
    rw [moveN] at hok
    cases hmv : move st with
    | error e => rw [hmv] at hok; cases hok
    | ok st₁ =>
      rw [hmv] at hok
      have hle1 := move_body_length_le hmv
      have hle2 := moveN_body_length_le n hok
      have hlen1 : st₁.snake.body.length = st.snake.body.length := by omega
      obtain ⟨h1, h2, h3, h4, h5, h6⟩ := move_straight_step hx hy hs hmv hlen1
      have hdir1 : st₁.snake.dir ≠ Direction.None := by rw [h3]; exact hdir
      obtain ⟨ih1, ih2⟩ := ih st₁ h5 h6 h4 hdir1 hok (by omega)
      constructor
      · rw [ih1, h3, h1]
        rfl
      · rw [ih2, h3, h2, List.map_map]
        apply List.map_congr_left
        intro a _
        rfl

/-- Witness for `moveN_straight_translation`: a straight length-3 snake on a
5-by-1 grid — head (2, 0), body (1, 0), (0, 0), heading Right — makes two
successful fruitless steps and ends translated by two unit vectors. -/
theorem moveN_straight_translation_witness :
    ∃ st' : GState,
      moveN 2 ⟨(((mkGrid 5 1).setType ⟨2, 0⟩ BlockType.OccupiedSnake).setType
            ⟨1, 0⟩ BlockType.OccupiedSnake).setType ⟨0, 0⟩
            BlockType.OccupiedSnake,
          ⟨⟨2, 0⟩, [⟨1, 0⟩, ⟨0, 0⟩], Direction.Right⟩⟩ = Except.ok st'
      ∧ st'.snake.head = forwardN Direction.Right 2 ⟨2, 0⟩
      ∧ st'.snake.body = [⟨1, 0⟩, ⟨0, 0⟩].map (forwardN Direction.Right 2) := by
  refine ⟨_, rfl, ?_⟩
  have h := moveN_straight_translation 2
    ⟨(((mkGrid 5 1).setType ⟨2, 0⟩ BlockType.OccupiedSnake).setType
        ⟨1, 0⟩ BlockType.OccupiedSnake).setType ⟨0, 0⟩ BlockType.OccupiedSnake,
      ⟨⟨2, 0⟩, [⟨1, 0⟩, ⟨0, 0⟩], Direction.Right⟩⟩
    _ (by decide) (by decide) (by decide) (by decide) rfl (by decide)
  exact h

lemma handleKey_head_body (s : Snake) (k : Key) :
    (handleKey s k).head = s.head ∧ (handleKey s k).body = s.body := by
  unfold handleKey
  cases hk : keyDirection k with
  | none => simp [hk]
  | some d =>
    simp only [hk]
    by_cases h : assert_direction s.dir d = true
    · simp [setDirection, h]
    · simp [setDirection, h]

lemma processEvents_head_body (ks : List Key) : ∀ (s : Snake),
    (processEvents s ks).head = s.head ∧ (processEvents s ks).body = s.body := by
  induction ks with
  | nil => intro s; exact ⟨rfl, rfl⟩
  | cons k rest ih =>
    intro s
    show (processEvents (handleKey s k) rest).head = s.head
      ∧ (processEvents (handleKey s k) rest).body = s.body
    obtain ⟨h1, h2⟩ := ih (handleKey s k)
    obtain ⟨h3, h4⟩ := handleKey_head_body s k
    exact ⟨h1.trans h3, h2.trans h4⟩

/-- C9 (amended): once the game state is End it stays End across any number
of further main-loop iterations, and elapsed time triggers no simulation
action: the grid and the snake's head and body accept no further mutation.
However, direction-change requests are still dispatched to the snake by the
event loop, so the heading can still change (subject to the usual
opposite-direction validation) — see the counterexample. -/
theorem end_state_terminal (st : LoopState) (evss : List (List Key))
    (h : st.game = GameStates.End) :
    (endLoopRun st evss).game = GameStates.End
    ∧ (endLoopRun st evss).grid = st.grid
    ∧ (endLoopRun st evss).snake.head = st.snake.head
    ∧ (endLoopRun st evss).snake.body = st.snake.body := by
  induction evss generalizing st with
  | nil => exact ⟨h, rfl, rfl, rfl⟩
  | cons ks rest ih =>
    show (endLoopRun (endLoopIter st ks) rest).game = GameStates.End
      ∧ (endLoopRun (endLoopIter st ks) rest).grid = st.grid
      ∧ (endLoopRun (endLoopIter st ks) rest).snake.head = st.snake.head
      ∧ (endLoopRun (endLoopIter st ks) rest).snake.body = st.snake.body
    obtain ⟨h1, h2, h3, h4⟩ := ih (endLoopIter st ks) h
    refine ⟨h1, h2.trans rfl, ?_, ?_⟩
    · exact h3.trans (processEvents_head_body ks st.snake).1
    · exact h4.trans (processEvents_head_body ks st.snake).2

/-- Witness for `end_state_terminal`: an End state run through two further
iterations with key presses keeps game = End, the grid, the head and the
body unchanged. -/
theorem end_state_terminal_witness :
    (endLoopRun ⟨GameStates.End, mkGrid 2 2, ⟨⟨1, 1⟩, [⟨0, 1⟩], Direction.Left⟩⟩
        [[Key.up], [Key.down, Key.other]]).game = GameStates.End
    ∧ (endLoopRun ⟨GameStates.End, mkGrid 2 2,
        ⟨⟨1, 1⟩, [⟨0, 1⟩], Direction.Left⟩⟩
        [[Key.up], [Key.down, Key.other]]).snake.head = ⟨1, 1⟩
    ∧ (endLoopRun ⟨GameStates.End, mkGrid 2 2,
        ⟨⟨1, 1⟩, [⟨0, 1⟩], Direction.Left⟩⟩
        [[Key.up], [Key.down, Key.other]]).snake.body = [⟨0, 1⟩] := by
  obtain ⟨h1, h2, h3, h4⟩ := end_state_terminal
    ⟨GameStates.End, mkGrid 2 2, ⟨⟨1, 1⟩, [⟨0, 1⟩], Direction.Left⟩⟩
    [[Key.up], [Key.down, Key.other]] rfl
  exact ⟨h1, h3, h4⟩

end Snek
